import Mathlib

/-!
Shallow embedding of the Zephyr test-management dashboard
(`src/zephyr_react_dashboard.js`).

Numbers flowing through the dashboard (test counts, percentages) are
modelled as rationals (`ℚ`): every arithmetic operation the code performs
on them is addition, subtraction, division and multiplication by 100 on
exact counts, and the `toFixed(1)` display rounding is modelled as
rounding to one decimal place.  JavaScript `undefined`/missing fields are
modelled as `Option`, and the `x || 0` defaulting idiom as `Option.getD 0`
(for a present numeric field, `x || 0` differs from `x` only at `x = 0`,
where both give `0`).  Rejected promises are modelled as `Except.error`
carrying the error message.
-/

namespace Zephyr

/-- JavaScript `x || 0` applied to a possibly-missing numeric field:
`undefined`/`null` (here `none`) and `0` all yield `0`. -/
def jsOr0 (x : Option ℚ) : ℚ := x.getD 0

/-- JavaScript truthiness of a possibly-missing string (as in
`if (result.error)`): present and non-empty. -/
def jsTruthyStr (x : Option String) : Bool :=
  match x with
  | none => false
  | some s => s != ""

/-- JavaScript `q.toFixed(1)` on a (non-negative, in-range) number,
modelled as rounding to one decimal place, half away from zero for the
positive values that occur here: `⌊q * 10 + 1/2⌋ / 10`. -/
def toFixed1 (q : ℚ) : ℚ := ((⌊q * 10 + 1/2⌋ : ℤ) : ℚ) / 10

/-! ## Data model (spec §3, shapes produced by the upstream tools) -/

/-- Project reference data: `{id, key, name, description}`. -/
structure Project where
  id : String
  key : String
  name : String
  description : String
deriving Repr, DecidableEq

/-- Version/Release: `{id, name, description}`. -/
structure Version where
  id : String
  name : String
  description : String
deriving Repr, DecidableEq

/-- Entry of the `get_release_status` result's `releases` array; the
dashboard only reads its `version` field (`loadVersions`, line 206). -/
structure Release where
  version : Version
deriving Repr, DecidableEq

/-- Cycle reference data `{id, name, description}` as read by `CycleCard`. -/
structure CycleInfo where
  id : String
  name : String
  description : String
deriving Repr, DecidableEq

/-- One entry of the `get_execution_progress` result's `progress` array:
per-cycle counts plus upstream-computed rates.  The rate fields may be
absent in the fetched data (`Option`), matching the `|| 0` guards at
lines 95–96 of the source. -/
structure CycleProgress where
  cycle : CycleInfo
  total_tests : ℚ
  passed : ℚ
  failed : ℚ
  blocked : ℚ
  unexecuted : ℚ
  execution_rate : Option ℚ
  pass_rate : Option ℚ
deriving Repr, DecidableEq

/-- Overall execution metrics of a generated report (all fields may be
missing in the fetched JSON; the renderer guards each read). -/
structure OverallMetrics where
  total_tests : Option ℚ
  passed : Option ℚ
  failed : Option ℚ
  blocked : Option ℚ
  unexecuted : Option ℚ
  execution_rate : Option ℚ
  pass_rate : Option ℚ
deriving Repr, DecidableEq

/-- Defect summary per project/version. -/
structure DefectSummary where
  totalDefects : Option ℚ
  openDefects : Option ℚ
  resolvedDefects : Option ℚ
deriving Repr, DecidableEq

/-- One entry of a generated report's `cycle_breakdown` array (the
dashboard only ever reads the array's length, line 464). -/
structure CycleBreakdownEntry where
  cycle : CycleInfo
  metrics : OverallMetrics
deriving Repr, DecidableEq

/-- Result of the `generate_test_report` tool call.  Like every parsed
tool result (spec §6), it may carry an upstream `error` field from the
remote service; `loadDashboard` never reads it. -/
structure Report where
  error : Option String
  overall_metrics : Option OverallMetrics
  cycle_breakdown : Option (List CycleBreakdownEntry)
  defect_summary : Option DefectSummary
deriving Repr, DecidableEq

/-- Result of the `get_execution_progress` tool call; the optional
upstream `error` field is never read by `loadDashboard`. -/
structure ProgressResult where
  error : Option String
  progress : Option (List CycleProgress)
deriving Repr, DecidableEq

/-- Result of the `get_regression_test_count` tool call; the optional
upstream `error` field is never read by `loadDashboard`. -/
structure RegressionResult where
  error : Option String
  total_regression_tests : Option ℚ
deriving Repr, DecidableEq

/-- Result of the `get_negative_test_count` tool call; the optional
upstream `error` field is never read by `loadDashboard`. -/
structure NegativeResult where
  error : Option String
  negative_test_count : Option ℚ
deriving Repr, DecidableEq

/-- Result of the `get_projects` tool call as read by `loadProjects`:
an optional upstream `error` field and an optional `projects` array. -/
structure ProjectsResult where
  error : Option String
  projects : Option (List Project)
deriving Repr, DecidableEq

/-- Result of the `get_release_status` tool call as read by
`loadVersions`: an optional upstream `error` field and an optional
`releases` array. -/
structure ReleaseStatusResult where
  error : Option String
  releases : Option (List Release)
deriving Repr, DecidableEq

/-! ## Tool client (`useMCPClient`, lines 25–54) -/

/-- Error taxonomy of a `callTool` invocation (spec §7): transport
failure (the `fetch`/`response.json()` promise rejecting), the explicit
`throw new Error('Invalid response from MCP server')` protocol check,
the JavaScript `TypeError` raised by `content[0].text` on an empty
`content` array, and a `JSON.parse` failure. -/
inductive MCPError where
  | communication : String → MCPError
  | protocol : String → MCPError
  | typeError : String → MCPError
  | parseFailure : String → MCPError
deriving Repr, DecidableEq

/-- One element of `result.result.content`: `{text: JSON-string}`. -/
structure ContentItem where
  text : String
deriving Repr, DecidableEq

/-- Shape of `result.result` in the transport response. -/
structure MCPResult where
  content : Option (List ContentItem)
deriving Repr, DecidableEq

/-- Parsed body of the transport response: `{result: {content: [...]}}`
with each level possibly absent. -/
structure MCPResponse where
  result : Option MCPResult
deriving Repr, DecidableEq

/-- The tool client's `callTool(toolName, arguments)` (lines 26–51).
`parseJson` stands for `JSON.parse` applied to `content[0].text` (its
result type `α` is the parsed JSON shape the caller expects);
`transport` is the already-awaited outcome of
`fetch('/api/mcp', ...)` followed by `response.json()`.  The `try/catch`
re-throws every error to the caller, so failures propagate as
`Except.error`. -/
def callTool {α : Type} (parseJson : String → Except MCPError α)
    (toolName : String) (arguments : List (String × String))
    (transport : Except MCPError MCPResponse) : Except MCPError α :=
  match transport with
  | .error e => .error e
  | .ok resp =>
    match resp.result with
    | none => .error (.protocol "Invalid response from MCP server")
    | some r =>
      match r.content with
      | none => .error (.protocol "Invalid response from MCP server")
      | some [] => .error (.typeError "cannot read properties of undefined")
      | some (item :: _) => parseJson item.text

/-! ## Presentation components (`ProgressBar`, `CycleCard`, lines 73–146) -/

/-- What a rendered `ProgressBar` shows: its label, the raw
`value`/`total` pair printed as text, and the computed percentage used
both for the printed `(…%)` figure and the bar width. -/
structure ProgressBarView where
  label : String
  value : ℚ
  total : ℚ
  percentage : ℚ
deriving Repr, DecidableEq

/-- The `ProgressBar` component (lines 73–90):
`percentage = total > 0 ? (value / total) * 100 : 0`. -/
def ProgressBar (label : String) (value total : ℚ) : ProgressBarView :=
  { label := label
    value := value
    total := total
    percentage := if 0 < total then value / total * 100 else 0 }

/-- What a rendered `CycleCard` computes: the defaulted upstream rates
(lines 95–96) and its two embedded progress bars (lines 131–142). -/
structure CycleCardView where
  executionRate : ℚ
  passRate : ℚ
  executionProgressBar : ProgressBarView
  passRateBar : ProgressBarView
deriving Repr, DecidableEq

/-- The `CycleCard` component (lines 93–146): defaults the upstream
rates with `|| 0` and feeds `total - unexecuted` resp. `passed` over
`total_tests` into its two `ProgressBar`s. -/
def CycleCard (c : CycleProgress) : CycleCardView :=
  let total := c.total_tests
  { executionRate := jsOr0 c.execution_rate
    passRate := jsOr0 c.pass_rate
    executionProgressBar := ProgressBar "Execution Progress" (total - c.unexecuted) total
    passRateBar := ProgressBar "Pass Rate" c.passed total }

/-! ## Dashboard state machine (`ZephyrDashboard`, lines 157–257) -/

/-- The four concurrently fetched results stored by a successful
`loadDashboard` (lines 240–245): the composite dashboard data object. -/
structure DashboardData where
  report : Report
  progress : ProgressResult
  regressionTests : RegressionResult
  negativeTests : NegativeResult
deriving Repr, DecidableEq

/-- The React state of `ZephyrDashboard` (lines 158–164). -/
structure DashState where
  projects : List Project
  selectedProject : String
  selectedVersion : String
  versions : List Version
  dashboardData : Option DashboardData
  loading : Bool
  error : String
deriving Repr, DecidableEq

/-- Initial state (lines 158–164): empty selections, no data, not
loading, empty error. -/
def initialState : DashState :=
  { projects := []
    selectedProject := ""
    selectedVersion := ""
    versions := []
    dashboardData := none
    loading := false
    error := "" }

/-- Whether an awaited promise resolved. -/
def resolved {α : Type} : Except String α → Bool
  | .ok _ => true
  | .error _ => false

/-- Rejection message of a settled promise, if any. -/
def errOf {α : Type} : Except String α → Option String
  | .ok _ => none
  | .error e => some e

/-- First rejection encountered along a completion order of the four
promises: `Promise.all` rejects with the reason of whichever input
promise rejects first in real time. -/
def firstErrorIn (order : List (Fin 4)) (errs : Fin 4 → Option String) :
    Option String :=
  match order with
  | [] => none
  | i :: rest =>
    match errs i with
    | some e => some e
    | none => firstErrorIn rest errs

/-- `Promise.all` over the four dashboard calls (lines 220–238), for a
given completion order of the four promises: resolves with all four
results when every call succeeds, otherwise rejects with the first
rejection in completion order. -/
def promiseAll4 (order : List (Fin 4))
    (r1 : Except String Report) (r2 : Except String ProgressResult)
    (r3 : Except String RegressionResult) (r4 : Except String NegativeResult) :
    Except String DashboardData :=
  match r1, r2, r3, r4 with
  | .ok a, .ok b, .ok c, .ok d => .ok ⟨a, b, c, d⟩
  | _, _, _, _ =>
    .error ((firstErrorIn order ![errOf r1, errOf r2, errOf r3, errOf r4]).getD "")

/-- `loadDashboard` (lines 214–251): sets `loading`, clears `error`,
awaits the join of the four concurrent calls, stores the composite
data object on success, sets the error message on failure, and clears
`loading` in `finally`.  `order` is the real-time completion order of
the four promises; `r1`–`r4` are their settled outcomes. -/
def loadDashboard (order : List (Fin 4)) (s : DashState)
    (r1 : Except String Report) (r2 : Except String ProgressResult)
    (r3 : Except String RegressionResult) (r4 : Except String NegativeResult) :
    DashState :=
  let s0 := { s with loading := true, error := "" }
  match promiseAll4 order r1 r2 r3 r4 with
  | .ok data => { s0 with dashboardData := some data, loading := false }
  | .error msg =>
    { s0 with error := "Failed to load dashboard: " ++ msg, loading := false }

/-- One outgoing tool invocation: `{method: "tools/call",
params: {name, arguments}}` (spec §6, lines 33–39 of the source). -/
structure ToolRequest where
  method : String
  name : String
  arguments : List (String × String)
deriving Repr, DecidableEq

/-- The tool invocations `loadDashboard` issues (lines 220–238): exactly
these four, each once, independent of any outcome. -/
def loadDashboardCalls (project version : String) : List ToolRequest :=
  [ { method := "tools/call", name := "generate_test_report"
      arguments := [("project_id", project), ("version_id", version),
                    ("include_details", "false")] }
  , { method := "tools/call", name := "get_execution_progress"
      arguments := [("project_id", project), ("version_id", version)] }
  , { method := "tools/call", name := "get_regression_test_count"
      arguments := [("project_id", project), ("version_id", version)] }
  , { method := "tools/call", name := "get_negative_test_count"
      arguments := [("project_id", project), ("version_id", version)] } ]

/-- `loadDashboard` together with its issued-call trace: the four calls
are fired up front inside `Promise.all`, before any result is known, so
the trace does not depend on the outcomes and no call is re-issued on
failure. -/
def loadDashboardTraced (order : List (Fin 4)) (s : DashState)
    (r1 : Except String Report) (r2 : Except String ProgressResult)
    (r3 : Except String RegressionResult) (r4 : Except String NegativeResult) :
    DashState × List ToolRequest :=
  (loadDashboard order s r1 r2 r3 r4,
   loadDashboardCalls s.selectedProject s.selectedVersion)

/-- `loadProjects` (lines 187–198): on resolution, an upstream `error`
field is copied into the error state, otherwise `projects || []` is
stored; on rejection the message is surfaced with a fixed prefix. -/
def loadProjects (s : DashState) (call : Except String ProjectsResult) :
    DashState :=
  match call with
  | .ok result =>
    if jsTruthyStr result.error then { s with error := result.error.getD "" }
    else { s with projects := result.projects.getD [] }
  | .error msg => { s with error := "Failed to load projects: " ++ msg }

/-- `loadVersions` (lines 200–212): on resolution, an upstream `error`
field is copied into the error state, otherwise
`releases?.map(r => r.version) || []` is stored; on rejection the
message is surfaced with a fixed prefix. -/
def loadVersions (s : DashState) (call : Except String ReleaseStatusResult) :
    DashState :=
  match call with
  | .ok result =>
    if jsTruthyStr result.error then { s with error := result.error.getD "" }
    else
      { s with versions := (result.releases.map (fun l => l.map Release.version)).getD [] }
  | .error msg => { s with error := "Failed to load versions: " ++ msg }

/-- `refreshDashboard` (lines 253–257): re-runs `loadDashboard` iff a
project and a version are selected (JavaScript truthiness of the two
selection strings), otherwise leaves the state untouched. -/
def refreshDashboard (order : List (Fin 4)) (s : DashState)
    (r1 : Except String Report) (r2 : Except String ProgressResult)
    (r3 : Except String RegressionResult) (r4 : Except String NegativeResult) :
    DashState :=
  if s.selectedProject != "" && s.selectedVersion != "" then
    loadDashboard order s r1 r2 r3 r4
  else s

/-! ## Rendering of the loaded dashboard data (lines 408–511) -/

/-- The numeric values shown by the seven `MetricCard`s of the main view
(lines 419–469).  Every read is guarded with optional chaining and
`|| 0`, so each field here is a total rational, never
`undefined`/`NaN`; the two rate cards additionally pass the value
through `.toFixed(1)`. -/
structure KeyMetricsView where
  totalTests : ℚ
  executionRate : ℚ
  passRate : ℚ
  openDefects : ℚ
  regressionTests : ℚ
  negativeTests : ℚ
  testCycles : ℚ
deriving Repr, DecidableEq

/-- The seven key-metric card values computed from a loaded
`dashboardData` (lines 419–469). -/
def renderKeyMetrics (d : DashboardData) : KeyMetricsView :=
  { totalTests := jsOr0 (d.report.overall_metrics.bind OverallMetrics.total_tests)
    executionRate :=
      toFixed1 (jsOr0 (d.report.overall_metrics.bind OverallMetrics.execution_rate))
    passRate :=
      toFixed1 (jsOr0 (d.report.overall_metrics.bind OverallMetrics.pass_rate))
    openDefects := jsOr0 (d.report.defect_summary.bind DefectSummary.openDefects)
    regressionTests := jsOr0 d.regressionTests.total_regression_tests
    negativeTests := jsOr0 d.negativeTests.negative_test_count
    testCycles :=
      jsOr0 (d.report.cycle_breakdown.map (fun l => (l.length : ℚ))) }

/-- The Cycle Details section (lines 506–510): one `CycleCard` per entry
of the progress call's `progress` array (nothing when the array is
absent). -/
def renderCycleDetails (d : DashboardData) : List CycleCardView :=
  (d.progress.progress.getD []).map CycleCard

/-- The error banner (lines 408–412): shown with the single error string
exactly when the error state is truthy (non-empty). -/
def renderError (s : DashState) : Option String :=
  if s.error = "" then none else some s.error

/-! ## Concrete sample inputs (used to instantiate the theorems) -/

/-- A cycle matching the spec §8 example
`{total:450, passed:320, failed:45, blocked:15, unexecuted:70}`. -/
def sampleCycle : CycleProgress :=
  { cycle := { id := "101", name := "Full Regression", description := "" }
    total_tests := 450
    passed := 320
    failed := 45
    blocked := 15
    unexecuted := 70
    execution_rate := none
    pass_rate := none }

/-- A cycle with no executions at all and absent upstream rates. -/
def zeroCycle : CycleProgress :=
  { cycle := { id := "0", name := "Empty", description := "" }
    total_tests := 0
    passed := 0
    failed := 0
    blocked := 0
    unexecuted := 0
    execution_rate := none
    pass_rate := none }

/-- A fetched dashboard data object in which every optional field the
renderer reads is absent. -/
def emptyDashboardData : DashboardData :=
  { report := { error := none, overall_metrics := none, cycle_breakdown := none,
                defect_summary := none }
    progress := { error := none, progress := none }
    regressionTests := { error := none, total_regression_tests := none }
    negativeTests := { error := none, negative_test_count := none } }

/-- A state with a project and a version selected. -/
def sampleSelectedState : DashState :=
  { initialState with selectedProject := "P1", selectedVersion := "V1" }

/-! ## Helper lemmas -/

/-- A message built from a non-empty fixed prefix is never the empty
string, so it always makes the error banner visible. -/
theorem prefixed_message_ne_empty (a m : String) (ha : a.length ≠ 0) :
    a ++ m ≠ "" := by
  intro h
  have h2 := congrArg String.length h
  simp [String.length_append] at h2
  exact ha h2.1

/-- `Promise.all` resolves exactly when every one of the four dashboard
calls resolves. -/
theorem promiseAll4_ok_iff (order : List (Fin 4))
    (r1 : Except String Report) (r2 : Except String ProgressResult)
    (r3 : Except String RegressionResult) (r4 : Except String NegativeResult) :
    (∃ data, promiseAll4 order r1 r2 r3 r4 = .ok data) ↔
      (resolved r1 = true ∧ resolved r2 = true ∧
        resolved r3 = true ∧ resolved r4 = true) := by
  cases r1 <;> cases r2 <;> cases r3 <;> cases r4 <;>
    simp [promiseAll4, resolved]

/-- If any of the four dashboard calls rejects, `Promise.all` rejects. -/
theorem promiseAll4_error_of_fail (order : List (Fin 4))
    (r1 : Except String Report) (r2 : Except String ProgressResult)
    (r3 : Except String RegressionResult) (r4 : Except String NegativeResult)
    (hfail : resolved r1 = false ∨ resolved r2 = false ∨
      resolved r3 = false ∨ resolved r4 = false) :
    ∃ m, promiseAll4 order r1 r2 r3 r4 = .error m := by
  cases r1 <;> cases r2 <;> cases r3 <;> cases r4
  all_goals first
    | exact ⟨_, rfl⟩
    | simp [resolved] at hfail

/-- On a rejected join, `loadDashboard` only sets the error message and
clears the loading flag. -/
theorem loadDashboard_error_eq (order : List (Fin 4)) (s : DashState)
    (r1 : Except String Report) (r2 : Except String ProgressResult)
    (r3 : Except String RegressionResult) (r4 : Except String NegativeResult)
    (m : String) (hm : promiseAll4 order r1 r2 r3 r4 = .error m) :
    loadDashboard order s r1 r2 r3 r4 =
      { s with loading := false, error := "Failed to load dashboard: " ++ m } := by
  unfold loadDashboard
  rw [hm]

/-- On a resolved join, `loadDashboard` stores the composite data,
clears the error and clears the loading flag. -/
theorem loadDashboard_ok_eq (order : List (Fin 4)) (s : DashState)
    (r1 : Except String Report) (r2 : Except String ProgressResult)
    (r3 : Except String RegressionResult) (r4 : Except String NegativeResult)
    (data : DashboardData) (hm : promiseAll4 order r1 r2 r3 r4 = .ok data) :
    loadDashboard order s r1 r2 r3 r4 =
      { s with loading := false, error := "", dashboardData := some data } := by
  unfold loadDashboard
  rw [hm]

/-! ## Claim theorems -/

/-- Claim C1: if any one of the four concurrently issued sub-calls of
the composite dashboard load (`generate_test_report`,
`get_execution_progress`, `get_regression_test_count`,
`get_negative_test_count`) fails, the whole composite operation fails
(the error banner is shown) and no partially populated report is
produced: the stored dashboard data is exactly what it was before, and
it is set only when all four calls succeed (in which case it holds the
merge of all four results). -/
theorem loadDashboard_all_or_nothing (order : List (Fin 4)) (s : DashState)
    (r1 : Except String Report) (r2 : Except String ProgressResult)
    (r3 : Except String RegressionResult) (r4 : Except String NegativeResult)
    (hfail : resolved r1 = false ∨ resolved r2 = false ∨
      resolved r3 = false ∨ resolved r4 = false) :
    (loadDashboard order s r1 r2 r3 r4).dashboardData = s.dashboardData ∧
      renderError (loadDashboard order s r1 r2 r3 r4) ≠ none := by
  obtain ⟨m, hm⟩ := promiseAll4_error_of_fail order r1 r2 r3 r4 hfail
  rw [loadDashboard_error_eq order s r1 r2 r3 r4 m hm]
  refine ⟨rfl, ?_⟩
  have hne := prefixed_message_ne_empty "Failed to load dashboard: " m (by decide)
  simp [renderError, hne]

/-- Witness for C1: a concrete failing first call leaves the (empty)
stored dashboard data untouched and shows the error banner. -/
theorem loadDashboard_all_or_nothing_witness :
    resolved (Except.error "boom" : Except String Report) = false ∧
      ((loadDashboard [0, 1, 2, 3] initialState (.error "boom")
          (.ok ⟨none, none⟩) (.ok ⟨none, none⟩) (.ok ⟨none, none⟩)).dashboardData =
        initialState.dashboardData ∧
      renderError (loadDashboard [0, 1, 2, 3] initialState (.error "boom")
          (.ok ⟨none, none⟩) (.ok ⟨none, none⟩) (.ok ⟨none, none⟩)) ≠ none) :=
  ⟨rfl, loadDashboard_all_or_nothing [0, 1, 2, 3] initialState (.error "boom")
    (.ok ⟨none, none⟩) (.ok ⟨none, none⟩) (.ok ⟨none, none⟩) (Or.inl rfl)⟩

/-- Claim C9: when the composite dashboard load fails, only the error
and loading fields of the state change — projects, versions, the two
selections and in particular the previously stored dashboard data are
all left exactly as they were; a failed load never clears or partially
overwrites an earlier successful report. -/
theorem loadDashboard_failure_frame (order : List (Fin 4)) (s : DashState)
    (r1 : Except String Report) (r2 : Except String ProgressResult)
    (r3 : Except String RegressionResult) (r4 : Except String NegativeResult)
    (hfail : resolved r1 = false ∨ resolved r2 = false ∨
      resolved r3 = false ∨ resolved r4 = false) :
    (loadDashboard order s r1 r2 r3 r4).dashboardData = s.dashboardData ∧
      (loadDashboard order s r1 r2 r3 r4).projects = s.projects ∧
      (loadDashboard order s r1 r2 r3 r4).versions = s.versions ∧
      (loadDashboard order s r1 r2 r3 r4).selectedProject = s.selectedProject ∧
      (loadDashboard order s r1 r2 r3 r4).selectedVersion = s.selectedVersion ∧
      (loadDashboard order s r1 r2 r3 r4).loading = false := by
  obtain ⟨m, hm⟩ := promiseAll4_error_of_fail order r1 r2 r3 r4 hfail
  rw [loadDashboard_error_eq order s r1 r2 r3 r4 m hm]
  exact ⟨rfl, rfl, rfl, rfl, rfl, rfl⟩

/-- Witness for C9: a concrete failed load on a state that already holds
a report keeps every field but error/loading, the stored report
included. -/
theorem loadDashboard_failure_frame_witness :
    resolved (Except.error "timeout" : Except String NegativeResult) = false ∧
      ((loadDashboard [2, 0, 3, 1]
          { sampleSelectedState with dashboardData := some emptyDashboardData }
          (.ok ⟨none, none, none, none⟩) (.ok ⟨none, none⟩) (.ok ⟨none, none⟩)
          (.error "timeout")).dashboardData =
        ({ sampleSelectedState with
            dashboardData := some emptyDashboardData } : DashState).dashboardData ∧
      (loadDashboard [2, 0, 3, 1]
          { sampleSelectedState with dashboardData := some emptyDashboardData }
          (.ok ⟨none, none, none, none⟩) (.ok ⟨none, none⟩) (.ok ⟨none, none⟩)
          (.error "timeout")).projects =
        ({ sampleSelectedState with
            dashboardData := some emptyDashboardData } : DashState).projects ∧
      (loadDashboard [2, 0, 3, 1]
          { sampleSelectedState with dashboardData := some emptyDashboardData }
          (.ok ⟨none, none, none, none⟩) (.ok ⟨none, none⟩) (.ok ⟨none, none⟩)
          (.error "timeout")).versions =
        ({ sampleSelectedState with
            dashboardData := some emptyDashboardData } : DashState).versions ∧
      (loadDashboard [2, 0, 3, 1]
          { sampleSelectedState with dashboardData := some emptyDashboardData }
          (.ok ⟨none, none, none, none⟩) (.ok ⟨none, none⟩) (.ok ⟨none, none⟩)
          (.error "timeout")).selectedProject =
        ({ sampleSelectedState with
            dashboardData := some emptyDashboardData } : DashState).selectedProject ∧
      (loadDashboard [2, 0, 3, 1]
          { sampleSelectedState with dashboardData := some emptyDashboardData }
          (.ok ⟨none, none, none, none⟩) (.ok ⟨none, none⟩) (.ok ⟨none, none⟩)
          (.error "timeout")).selectedVersion =
        ({ sampleSelectedState with
            dashboardData := some emptyDashboardData } : DashState).selectedVersion ∧
      (loadDashboard [2, 0, 3, 1]
          { sampleSelectedState with dashboardData := some emptyDashboardData }
          (.ok ⟨none, none, none, none⟩) (.ok ⟨none, none⟩) (.ok ⟨none, none⟩)
          (.error "timeout")).loading = false) :=
  ⟨rfl, loadDashboard_failure_frame [2, 0, 3, 1]
    { sampleSelectedState with dashboardData := some emptyDashboardData }
    (.ok ⟨none, none, none, none⟩) (.ok ⟨none, none⟩) (.ok ⟨none, none⟩) (.error "timeout")
    (Or.inr (Or.inr (Or.inr rfl)))⟩

/-- Claim C5: the composite dashboard load issues its four independent
remote calls concurrently with join-all semantics: when all four
succeed, the join resolves with all four results regardless of the
real-time completion order (no ordering guarantee among the fan-out
calls); the join resolves only if every call resolved (the caller
suspends until all resolve); a resolved outcome is identical under any
two completion orders; and exactly four calls are issued. -/
theorem loadDashboard_join_all_semantics (order order2 : List (Fin 4))
    (a : Report) (b : ProgressResult) (rg : RegressionResult)
    (ng : NegativeResult)
    (r1 : Except String Report) (r2 : Except String ProgressResult)
    (r3 : Except String RegressionResult) (r4 : Except String NegativeResult)
    (p v : String) :
    promiseAll4 order (.ok a) (.ok b) (.ok rg) (.ok ng) = .ok ⟨a, b, rg, ng⟩ ∧
      ((∃ data, promiseAll4 order r1 r2 r3 r4 = .ok data) →
        resolved r1 = true ∧ resolved r2 = true ∧
          resolved r3 = true ∧ resolved r4 = true) ∧
      (∀ data, promiseAll4 order r1 r2 r3 r4 = .ok data →
        promiseAll4 order2 r1 r2 r3 r4 = .ok data) ∧
      (loadDashboardCalls p v).length = 4 := by
  refine ⟨rfl, fun h => (promiseAll4_ok_iff order r1 r2 r3 r4).mp h, ?_, rfl⟩
  intro data h
  have hres := (promiseAll4_ok_iff order r1 r2 r3 r4).mp ⟨data, h⟩
  cases r1 <;> cases r2 <;> cases r3 <;> cases r4 <;>
    simp_all [promiseAll4, resolved]

/-- Witness for C5: with four concrete resolved calls the join resolves
with all four results under both of two different completion orders. -/
theorem loadDashboard_join_all_semantics_witness :
    promiseAll4 [0, 1, 2, 3] (.ok ⟨none, none, none, none⟩) (.ok ⟨none, none⟩) (.ok ⟨none, none⟩)
        (.ok ⟨none, none⟩) =
      .ok ⟨⟨none, none, none, none⟩, ⟨none, none⟩, ⟨none, none⟩, ⟨none, none⟩⟩ ∧
    (resolved (Except.ok ⟨none, none, none, none⟩ : Except String Report) = true ∧
      resolved (Except.ok ⟨none, none⟩ : Except String ProgressResult) = true ∧
      resolved (Except.ok ⟨none, none⟩ : Except String RegressionResult) = true ∧
      resolved (Except.ok ⟨none, none⟩ : Except String NegativeResult) = true) ∧
    promiseAll4 [3, 2, 1, 0] (.ok ⟨none, none, none, none⟩) (.ok ⟨none, none⟩) (.ok ⟨none, none⟩)
        (.ok ⟨none, none⟩) =
      .ok ⟨⟨none, none, none, none⟩, ⟨none, none⟩, ⟨none, none⟩, ⟨none, none⟩⟩ ∧
    (loadDashboardCalls "P1" "V1").length = 4 := by
  have h := loadDashboard_join_all_semantics [0, 1, 2, 3] [3, 2, 1, 0]
    ⟨none, none, none, none⟩ ⟨none, none⟩ ⟨none, none⟩ ⟨none, none⟩
    (.ok ⟨none, none, none, none⟩) (.ok ⟨none, none⟩) (.ok ⟨none, none⟩)
    (.ok ⟨none, none⟩) "P1" "V1"
  exact ⟨h.1, h.2.1 ⟨_, rfl⟩, h.2.2.1 _ rfl, h.2.2.2⟩

/-- Claim C2: whenever the total count is 0 the computed rates are 0
(the embedding is total on `ℚ`, so no value is ever `NaN` or
`undefined`): the percentage computed by the progress-bar component is
0 whenever `total = 0`, both progress bars of a cycle card show 0 when
the cycle's total is 0, and a cycle's `execution_rate` and `pass_rate`
default to 0 when absent. -/
theorem rates_zero_on_zero_total_and_absent (label : String) (v : ℚ)
    (c : CycleProgress) :
    (ProgressBar label v 0).percentage = 0 ∧
      (c.total_tests = 0 →
        (CycleCard c).executionProgressBar.percentage = 0 ∧
          (CycleCard c).passRateBar.percentage = 0) ∧
      (c.execution_rate = none → (CycleCard c).executionRate = 0) ∧
      (c.pass_rate = none → (CycleCard c).passRate = 0) := by
  refine ⟨by simp [ProgressBar], fun h => ?_, fun h => ?_, fun h => ?_⟩
  · constructor <;> simp [CycleCard, ProgressBar, h]
  · simp [CycleCard, jsOr0, h]
  · simp [CycleCard, jsOr0, h]

/-- Witness for C2: the concrete all-zero cycle with absent rates shows
0 everywhere. -/
theorem rates_zero_on_zero_total_and_absent_witness :
    (ProgressBar "Execution Progress" 5 0).percentage = 0 ∧
      ((CycleCard zeroCycle).executionProgressBar.percentage = 0 ∧
        (CycleCard zeroCycle).passRateBar.percentage = 0) ∧
      (CycleCard zeroCycle).executionRate = 0 ∧
      (CycleCard zeroCycle).passRate = 0 :=
  have h := rates_zero_on_zero_total_and_absent "Execution Progress" 5 zeroCycle
  ⟨h.1, h.2.1 rfl, h.2.2.1 rfl, h.2.2.2 rfl⟩

/-- Claim C3: for every cycle with total > 0 the displayed execution
rate is exactly `(total - unexecuted) / total * 100` (so in particular
within any rounding tolerance) and the displayed pass rate is
`passed / total * 100`; for `total = 450`, `unexecuted = 70`,
`passed = 320` the two rates display (after `toFixed(1)`) as 84.4 and
71.1. -/
theorem cycleCard_execution_rate_formula (c : CycleProgress)
    (h : 0 < c.total_tests) :
    (CycleCard c).executionProgressBar.percentage =
      (c.total_tests - c.unexecuted) / c.total_tests * 100 ∧
      (CycleCard c).passRateBar.percentage = c.passed / c.total_tests * 100 ∧
      (c.total_tests = 450 → c.unexecuted = 70 → c.passed = 320 →
        toFixed1 ((CycleCard c).executionProgressBar.percentage) = 844 / 10 ∧
          toFixed1 ((CycleCard c).passRateBar.percentage) = 711 / 10) := by
  refine ⟨by simp [CycleCard, ProgressBar, if_pos h], ?_, ?_⟩
  · simp [CycleCard, ProgressBar, if_pos h]
  · intro h1 h2 h3
    constructor <;> norm_num [CycleCard, ProgressBar, toFixed1, h1, h2, h3]

/-- Witness for C3: the spec §8 sample cycle (450 total, 70 unexecuted,
320 passed) displays an 84.4% execution rate and a 71.1% pass rate. -/
theorem cycleCard_execution_rate_formula_witness :
    0 < sampleCycle.total_tests ∧
      ((CycleCard sampleCycle).executionProgressBar.percentage =
        (sampleCycle.total_tests - sampleCycle.unexecuted) /
          sampleCycle.total_tests * 100 ∧
      toFixed1 ((CycleCard sampleCycle).executionProgressBar.percentage) =
        844 / 10 ∧
      toFixed1 ((CycleCard sampleCycle).passRateBar.percentage) = 711 / 10) :=
  have hpos : 0 < sampleCycle.total_tests := by norm_num [sampleCycle]
  have h := cycleCard_execution_rate_formula sampleCycle hpos
  ⟨hpos, h.1, (h.2.2 rfl rfl rfl).1, (h.2.2 rfl rfl rfl).2⟩

/-- Claim C4: after a successful composite load the merged dashboard
object holds exactly the four fetched results; its rendered
`total_tests` comes from the execution-summary (`generate_test_report`)
call's `overall_metrics`, the regression and negative counts are copied
into the merged object as extra fields (and rendered from them), and
the displayed per-cycle breakdown is the per-cycle array of the
progress call with the rates recomputed by the cycle cards' progress
bars. -/
theorem dashboard_merge_shape (order : List (Fin 4)) (s : DashState)
    (a : Report) (b : ProgressResult) (rg : RegressionResult)
    (ng : NegativeResult) :
    (loadDashboard order s (.ok a) (.ok b) (.ok rg) (.ok ng)).dashboardData =
        some ⟨a, b, rg, ng⟩ ∧
      (renderKeyMetrics ⟨a, b, rg, ng⟩).totalTests =
        jsOr0 (a.overall_metrics.bind OverallMetrics.total_tests) ∧
      (⟨a, b, rg, ng⟩ : DashboardData).regressionTests = rg ∧
      (⟨a, b, rg, ng⟩ : DashboardData).negativeTests = ng ∧
      (renderKeyMetrics ⟨a, b, rg, ng⟩).regressionTests =
        jsOr0 rg.total_regression_tests ∧
      (renderKeyMetrics ⟨a, b, rg, ng⟩).negativeTests =
        jsOr0 ng.negative_test_count ∧
      renderCycleDetails ⟨a, b, rg, ng⟩ = (b.progress.getD []).map CycleCard :=
  ⟨rfl, rfl, rfl, rfl, rfl, rfl, rfl⟩

/-- Claim C6: for every operation name and argument map, the tool
client's invoke operation returns the parsed JSON result on success,
fails with the protocol error (`Invalid response from MCP server`)
whenever the response shape lacks the expected content field, and
propagates transport failures unchanged to the caller. -/
theorem callTool_contract {α : Type} (parseJson : String → Except MCPError α)
    (toolName : String) (arguments : List (String × String))
    (resp : MCPResponse) :
    (resp.result.bind MCPResult.content = none →
        callTool parseJson toolName arguments (.ok resp) =
          .error (.protocol "Invalid response from MCP server")) ∧
      (∀ r item rest, resp.result = some r → r.content = some (item :: rest) →
        callTool parseJson toolName arguments (.ok resp) = parseJson item.text) ∧
      (∀ e, callTool parseJson toolName arguments (.error e) = .error e) := by
  refine ⟨fun h => ?_, fun r item rest h1 h2 => ?_, fun e => rfl⟩
  · match hres : resp.result with
    | none => simp [callTool, hres]
    | some r =>
      rw [hres] at h
      simp at h
      simp [callTool, hres, h]
  · simp [callTool, h1, h2]

/-- Witness for C6: a response missing `result` yields the protocol
error and a well-shaped response yields the parsed first text item. -/
theorem callTool_contract_witness :
    ((⟨none⟩ : MCPResponse).result.bind MCPResult.content = none ∧
      callTool (fun t => Except.ok t) "get_projects" [] (.ok ⟨none⟩) =
        .error (.protocol "Invalid response from MCP server")) ∧
      callTool (fun t => Except.ok t) "get_projects" []
          (.ok ⟨some ⟨some [⟨"[]"⟩]⟩⟩) =
        .ok "[]" ∧
      callTool (fun t => Except.ok t) "get_projects" [] (.error (.communication "down")) =
        .error (.communication "down") :=
  have h1 := callTool_contract (fun t => Except.ok t) "get_projects" [] ⟨none⟩
  have h2 := callTool_contract (fun t => Except.ok t) "get_projects" []
    ⟨some ⟨some [⟨"[]"⟩]⟩⟩
  ⟨⟨rfl, h1.1 rfl⟩, h2.2.1 ⟨some [⟨"[]"⟩]⟩ ⟨"[]"⟩ [] rfl rfl,
    h1.2.2 (.communication "down")⟩

/-- Claim C7: selecting a project whose release-status result contains
zero versions (releases absent or an empty array, and no upstream error
field) yields an empty version list and leaves the error state exactly
as it was — no error is raised and the error banner does not change. -/
theorem loadVersions_empty_releases (s : DashState)
    (res : ReleaseStatusResult) (herr : jsTruthyStr res.error = false)
    (hrel : res.releases = none ∨ res.releases = some []) :
    (loadVersions s (.ok res)).versions = [] ∧
      (loadVersions s (.ok res)).error = s.error ∧
      renderError (loadVersions s (.ok res)) = renderError s := by
  rcases hrel with h | h <;>
    refine ⟨?_, ?_, ?_⟩ <;> simp [loadVersions, renderError, herr, h]

/-- Witness for C7: a release-status result with no `releases` field and
no error yields the empty version list without touching the error. -/
theorem loadVersions_empty_releases_witness :
    jsTruthyStr (none : Option String) = false ∧
      ((loadVersions initialState (.ok ⟨none, none⟩)).versions = [] ∧
        (loadVersions initialState (.ok ⟨none, none⟩)).error =
          initialState.error ∧
        renderError (loadVersions initialState (.ok ⟨none, none⟩)) =
          renderError initialState) :=
  ⟨rfl, loadVersions_empty_releases initialState ⟨none, none⟩ rfl (Or.inl rfl)⟩

/-- Claim C8 (counterexample): an upstream error — a resolved result
whose payload carries an error field from the remote service — of one
of the composite dashboard load's sub-calls is not surfaced as a
user-visible error message: the error state stays empty, the banner
shows nothing, and the error-bearing report is silently stored as the
dashboard data, because `loadDashboard` never inspects its four parsed
results for an error field. -/
theorem loadDashboard_upstream_error_not_surfaced :
    (⟨some "Zephyr upstream failure", none, none, none⟩ : Report).error =
        some "Zephyr upstream failure" ∧
      (loadDashboard [0, 1, 2, 3] sampleSelectedState
          (.ok ⟨some "Zephyr upstream failure", none, none, none⟩)
          (.ok ⟨none, none⟩) (.ok ⟨none, none⟩) (.ok ⟨none, none⟩)).error = "" ∧
      renderError (loadDashboard [0, 1, 2, 3] sampleSelectedState
          (.ok ⟨some "Zephyr upstream failure", none, none, none⟩)
          (.ok ⟨none, none⟩) (.ok ⟨none, none⟩) (.ok ⟨none, none⟩)) = none ∧
      (loadDashboard [0, 1, 2, 3] sampleSelectedState
          (.ok ⟨some "Zephyr upstream failure", none, none, none⟩)
          (.ok ⟨none, none⟩) (.ok ⟨none, none⟩) (.ok ⟨none, none⟩)).dashboardData =
        some ⟨⟨some "Zephyr upstream failure", none, none, none⟩,
          ⟨none, none⟩, ⟨none, none⟩, ⟨none, none⟩⟩ :=
  ⟨rfl, rfl, rfl, rfl⟩

/-- Claim C8 (amended): every rejected load call (where communication
and protocol failures land) is surfaced to the presentation layer as a
single user-visible error message string shown by the banner; an
upstream error field carried in a resolved result is surfaced by the
project and version loads, which check it, while the composite
dashboard load never sets the error on resolved results, whatever error
fields they carry; the trace of tool calls a dashboard load issues is
the same fixed four-element list whatever the outcomes, with no
operation name repeated (so no failed call is retried automatically);
and `refreshDashboard` manually re-triggers the dashboard load whenever
a project and a version are selected. -/
theorem failures_surfaced_amended (order : List (Fin 4))
    (s : DashState) (msgP msgV e : String)
    (resP : ProjectsResult) (resV : ReleaseStatusResult)
    (a : Report) (b : ProgressResult) (rg : RegressionResult)
    (ng : NegativeResult)
    (r1 : Except String Report) (r2 : Except String ProgressResult)
    (r3 : Except String RegressionResult) (r4 : Except String NegativeResult) :
    ((loadProjects s (.error msgP)).error = "Failed to load projects: " ++ msgP ∧
        renderError (loadProjects s (.error msgP)) =
          some ("Failed to load projects: " ++ msgP)) ∧
      ((loadVersions s (.error msgV)).error = "Failed to load versions: " ++ msgV ∧
        renderError (loadVersions s (.error msgV)) =
          some ("Failed to load versions: " ++ msgV)) ∧
      ((resolved r1 = false ∨ resolved r2 = false ∨
          resolved r3 = false ∨ resolved r4 = false) →
        ∃ m, (loadDashboard order s r1 r2 r3 r4).error =
            "Failed to load dashboard: " ++ m ∧
          renderError (loadDashboard order s r1 r2 r3 r4) =
            some ("Failed to load dashboard: " ++ m)) ∧
      (resP.error = some e → e ≠ "" →
        (loadProjects s (.ok resP)).error = e ∧
          renderError (loadProjects s (.ok resP)) = some e) ∧
      (resV.error = some e → e ≠ "" →
        (loadVersions s (.ok resV)).error = e ∧
          renderError (loadVersions s (.ok resV)) = some e) ∧
      (loadDashboard order s (.ok a) (.ok b) (.ok rg) (.ok ng)).error = "" ∧
      ((loadDashboardTraced order s r1 r2 r3 r4).2 =
          loadDashboardCalls s.selectedProject s.selectedVersion ∧
        (loadDashboardCalls s.selectedProject s.selectedVersion).map
            ToolRequest.name =
          ["generate_test_report", "get_execution_progress",
            "get_regression_test_count", "get_negative_test_count"] ∧
        ((loadDashboardCalls s.selectedProject s.selectedVersion).map
            ToolRequest.name).Nodup) ∧
      (s.selectedProject ≠ "" → s.selectedVersion ≠ "" →
        refreshDashboard order s r1 r2 r3 r4 =
          loadDashboard order s r1 r2 r3 r4) := by
  have hneP := prefixed_message_ne_empty "Failed to load projects: " msgP (by decide)
  have hneV := prefixed_message_ne_empty "Failed to load versions: " msgV (by decide)
  refine ⟨⟨rfl, by simp [loadProjects, renderError, hneP]⟩,
    ⟨rfl, by simp [loadVersions, renderError, hneV]⟩, fun hfail => ?_,
    fun he hne => ?_, fun he hne => ?_, ?_, ⟨rfl, rfl, ?_⟩, fun hP hV => ?_⟩
  · obtain ⟨m, hm⟩ := promiseAll4_error_of_fail order r1 r2 r3 r4 hfail
    rw [loadDashboard_error_eq order s r1 r2 r3 r4 m hm]
    have hneD := prefixed_message_ne_empty "Failed to load dashboard: " m (by decide)
    exact ⟨m, rfl, by simp [renderError, hneD]⟩
  · have ht : jsTruthyStr (some e) = true := by simp [jsTruthyStr, hne]
    refine ⟨?_, ?_⟩ <;> simp [loadProjects, renderError, he, ht, hne]
  · have ht : jsTruthyStr (some e) = true := by simp [jsTruthyStr, hne]
    refine ⟨?_, ?_⟩ <;> simp [loadVersions, renderError, he, ht, hne]
  · rw [loadDashboard_ok_eq order s (.ok a) (.ok b) (.ok rg) (.ok ng)
      ⟨a, b, rg, ng⟩ rfl]
  · rw [show (loadDashboardCalls s.selectedProject s.selectedVersion).map
        ToolRequest.name =
        ["generate_test_report", "get_execution_progress",
          "get_regression_test_count", "get_negative_test_count"] from rfl]
    decide
  · simp [refreshDashboard, hP, hV]

/-- Witness for the amended C8: with a project and version selected, a
concrete rejected call shows the single prefixed banner message, a
concrete upstream error field is surfaced by the project and version
loads, a resolved composite load leaves the error empty, the issued
call list is the fixed four, and refresh re-runs the load. -/
theorem failures_surfaced_amended_witness :
    ((loadProjects sampleSelectedState (.error "net down")).error =
        "Failed to load projects: " ++ "net down" ∧
      renderError (loadProjects sampleSelectedState (.error "net down")) =
        some ("Failed to load projects: " ++ "net down")) ∧
      ((loadVersions sampleSelectedState (.error "net down")).error =
        "Failed to load versions: " ++ "net down" ∧
      renderError (loadVersions sampleSelectedState (.error "net down")) =
        some ("Failed to load versions: " ++ "net down")) ∧
      (∃ m, (loadDashboard [0, 1, 2, 3] sampleSelectedState (.error "boom")
          (.ok ⟨none, none⟩) (.ok ⟨none, none⟩) (.ok ⟨none, none⟩)).error =
          "Failed to load dashboard: " ++ m ∧
        renderError (loadDashboard [0, 1, 2, 3] sampleSelectedState
            (.error "boom") (.ok ⟨none, none⟩) (.ok ⟨none, none⟩)
            (.ok ⟨none, none⟩)) =
          some ("Failed to load dashboard: " ++ m)) ∧
      ((loadProjects sampleSelectedState
          (.ok ⟨some "Project not found", none⟩)).error = "Project not found" ∧
        renderError (loadProjects sampleSelectedState
            (.ok ⟨some "Project not found", none⟩)) =
          some "Project not found") ∧
      ((loadVersions sampleSelectedState
          (.ok ⟨some "Project not found", none⟩)).error = "Project not found" ∧
        renderError (loadVersions sampleSelectedState
            (.ok ⟨some "Project not found", none⟩)) =
          some "Project not found") ∧
      (loadDashboard [0, 1, 2, 3] sampleSelectedState
          (.ok ⟨none, none, none, none⟩) (.ok ⟨none, none⟩) (.ok ⟨none, none⟩)
          (.ok ⟨none, none⟩)).error = "" ∧
      ((loadDashboardTraced [0, 1, 2, 3] sampleSelectedState (.error "boom")
          (.ok ⟨none, none⟩) (.ok ⟨none, none⟩) (.ok ⟨none, none⟩)).2 =
        loadDashboardCalls sampleSelectedState.selectedProject
          sampleSelectedState.selectedVersion ∧
      (loadDashboardCalls sampleSelectedState.selectedProject
          sampleSelectedState.selectedVersion).map ToolRequest.name =
        ["generate_test_report", "get_execution_progress",
          "get_regression_test_count", "get_negative_test_count"] ∧
      ((loadDashboardCalls sampleSelectedState.selectedProject
          sampleSelectedState.selectedVersion).map ToolRequest.name).Nodup) ∧
      refreshDashboard [0, 1, 2, 3] sampleSelectedState (.error "boom")
          (.ok ⟨none, none⟩) (.ok ⟨none, none⟩) (.ok ⟨none, none⟩) =
        loadDashboard [0, 1, 2, 3] sampleSelectedState (.error "boom")
          (.ok ⟨none, none⟩) (.ok ⟨none, none⟩) (.ok ⟨none, none⟩) :=
  have h := failures_surfaced_amended [0, 1, 2, 3]
    sampleSelectedState "net down" "net down" "Project not found"
    ⟨some "Project not found", none⟩ ⟨some "Project not found", none⟩
    ⟨none, none, none, none⟩ ⟨none, none⟩ ⟨none, none⟩ ⟨none, none⟩
    (.error "boom") (.ok ⟨none, none⟩) (.ok ⟨none, none⟩) (.ok ⟨none, none⟩)
  ⟨h.1, h.2.1, h.2.2.1 (Or.inl rfl), h.2.2.2.1 rfl (by decide),
    h.2.2.2.2.1 rfl (by decide), h.2.2.2.2.2.1, h.2.2.2.2.2.2.1,
    h.2.2.2.2.2.2.2 (by decide) (by decide)⟩

/-- Claim C10: each key metric the dashboard renders (total tests,
execution rate, pass rate, open defects, regression test count,
negative test count, cycle count) is 0 whenever the corresponding field
is missing in the fetched data; each rendered value is a total rational
by construction, so it is always a number and never
`undefined`/`NaN`. -/
theorem renderKeyMetrics_defaults_missing_to_zero (d : DashboardData) :
    (d.report.overall_metrics.bind OverallMetrics.total_tests = none →
        (renderKeyMetrics d).totalTests = 0) ∧
      (d.report.overall_metrics.bind OverallMetrics.execution_rate = none →
        (renderKeyMetrics d).executionRate = 0) ∧
      (d.report.overall_metrics.bind OverallMetrics.pass_rate = none →
        (renderKeyMetrics d).passRate = 0) ∧
      (d.report.defect_summary.bind DefectSummary.openDefects = none →
        (renderKeyMetrics d).openDefects = 0) ∧
      (d.regressionTests.total_regression_tests = none →
        (renderKeyMetrics d).regressionTests = 0) ∧
      (d.negativeTests.negative_test_count = none →
        (renderKeyMetrics d).negativeTests = 0) ∧
      (d.report.cycle_breakdown = none → (renderKeyMetrics d).testCycles = 0) := by
  refine ⟨fun h => ?_, fun h => ?_, fun h => ?_, fun h => ?_, fun h => ?_,
    fun h => ?_, fun h => ?_⟩ <;>
    norm_num [renderKeyMetrics, jsOr0, toFixed1, h]

/-- Witness for C10: the dashboard data with every optional field
missing renders every key metric as 0. -/
theorem renderKeyMetrics_defaults_missing_to_zero_witness :
    (renderKeyMetrics emptyDashboardData).totalTests = 0 ∧
      (renderKeyMetrics emptyDashboardData).executionRate = 0 ∧
      (renderKeyMetrics emptyDashboardData).passRate = 0 ∧
      (renderKeyMetrics emptyDashboardData).openDefects = 0 ∧
      (renderKeyMetrics emptyDashboardData).regressionTests = 0 ∧
      (renderKeyMetrics emptyDashboardData).negativeTests = 0 ∧
      (renderKeyMetrics emptyDashboardData).testCycles = 0 :=
  have h := renderKeyMetrics_defaults_missing_to_zero emptyDashboardData
  ⟨h.1 rfl, h.2.1 rfl, h.2.2.1 rfl, h.2.2.2.1 rfl, h.2.2.2.2.1 rfl,
    h.2.2.2.2.2.1 rfl, h.2.2.2.2.2.2 rfl⟩

end Zephyr
